import Mathlib

/-!
Verification development for the cacheall proxy server.

The Python sources (`proxyserv.py` and the `httpmessage` package) are shallowly
embedded below: byte streams are `List Char`, mutable objects become explicit
state records, Python exceptions become `Except HmExc`, and the global
notification bus / filesystem / redirect map become explicit parameters or
fields.  Every definition is translated from the corresponding Python function;
comments reference the source file and behaviour being modelled.
-/

namespace CacheProxy

instance {ε α : Type} [DecidableEq ε] [DecidableEq α] : DecidableEq (Except ε α) := fun x y =>
  match x, y with
  | .ok a, .ok b =>
    if h : a = b then .isTrue (by rw [h]) else .isFalse (by simp [h])
  | .error a, .error b =>
    if h : a = b then .isTrue (by rw [h]) else .isFalse (by simp [h])
  | .ok _, .error _ => .isFalse (by simp)
  | .error _, .ok _ => .isFalse (by simp)

/-- Exceptions raised by the `httpmessage` package and the coordinator
(`httpmessage/exc.py`, plus Python built-ins used by the code). -/
inductive HmExc
  | entityReadError (msg : String)
  | reentrantDispatch (ctx : String)
  | bufferingAbort
  | keyError
  | assertionFailed (msg : String)
  | notImplementedYet
  deriving Repr, DecidableEq

/-! ## Byte-source primitives (Python file-like `read` / `readline`) -/

/-- Python `fileobj.readline()` over a character stream: returns the characters
up to and including the first newline (or everything, if no newline; the empty
list at EOF) together with the remaining stream. -/
def pyReadline : List Char → List Char × List Char
  | [] => ([], [])
  | c :: cs =>
    if c = '\n' then ([c], cs)
    else
      let (l, r) := pyReadline cs
      (c :: l, r)

/-- Python `fileobj.read(n)` for a string-backed source: returns up to `n`
characters and the rest. -/
def pyRead (n : Nat) (s : List Char) : List Char × List Char :=
  (s.take n, s.drop n)

/-- Python `fileobj.read(n)` where `n` may be negative (a negative size reads
to EOF, as `cStringIO.read` does). -/
def pyReadInt (n : Int) (s : List Char) : List Char × List Char :=
  if n < 0 then (s, []) else (s.take n.toNat, s.drop n.toNat)

/-- The characters Python `str.strip()` removes. -/
def isPySpace (c : Char) : Bool :=
  c = ' ' || c = '\t' || c = '\n' || c = '\r' || c = '\x0b' || c = '\x0c'

/-- Python `str.strip()`: drop whitespace from both ends. -/
def pyStrip (s : List Char) : List Char :=
  ((s.dropWhile isPySpace).reverse.dropWhile isPySpace).reverse

/-- Value of a hexadecimal digit, if the character is one. -/
def hexDigitVal (c : Char) : Option Nat :=
  if '0' ≤ c ∧ c ≤ '9' then some (c.toNat - '0'.toNat)
  else if 'a' ≤ c ∧ c ≤ 'f' then some (c.toNat - 'a'.toNat + 10)
  else if 'A' ≤ c ∧ c ≤ 'F' then some (c.toNat - 'A'.toNat + 10)
  else none

/-- Accumulate hexadecimal digits; `none` on the first non-hex character. -/
def hexDigitsAux : List Char → Nat → Option Nat
  | [], acc => some acc
  | c :: cs, acc =>
    match hexDigitVal c with
    | some d => hexDigitsAux cs (acc * 16 + d)
    | none => none

/-- Python `int(s, 16)` on an already-stripped string: optional sign, optional
`0x`/`0X` prefix, then one or more hex digits; `none` models `ValueError`. -/
def pyParseHex (s : List Char) : Option Int :=
  let (sign, rest) :=
    match s with
    | '-' :: cs => ((-1 : Int), cs)
    | '+' :: cs => ((1 : Int), cs)
    | cs => ((1 : Int), cs)
  let rest :=
    match rest with
    | '0' :: 'x' :: cs => cs
    | '0' :: 'X' :: cs => cs
    | cs => cs
  match rest with
  | [] => none
  | _ => (hexDigitsAux rest 0).map (fun n => sign * (n : Int))

/-- Value of a decimal digit, if the character is one. -/
def decDigitVal (c : Char) : Option Nat :=
  if '0' ≤ c ∧ c ≤ '9' then some (c.toNat - '0'.toNat) else none

/-- Accumulate decimal digits; `none` on the first non-digit. -/
def decDigitsAux : List Char → Nat → Option Nat
  | [], acc => some acc
  | c :: cs, acc =>
    match decDigitVal c with
    | some d => decDigitsAux cs (acc * 10 + d)
    | none => none

/-- Python `int(s)` : surrounding whitespace stripped, optional sign, one or
more decimal digits; `none` models `ValueError`. -/
def pyParseInt (s : String) : Option Int :=
  let t := pyStrip s.toList
  let (sign, rest) :=
    match t with
    | '-' :: cs => ((-1 : Int), cs)
    | '+' :: cs => ((1 : Int), cs)
    | cs => ((1 : Int), cs)
  match rest with
  | [] => none
  | _ => (decDigitsAux rest 0).map (fun n => sign * (n : Int))

/-! ## Chunked entity reader (`httpmessage/_entityreader.py`, ChunkedEntityReader) -/

/-- State of a `ChunkedEntityReader`: the `finished` flag and the remaining
bytes of its file object. -/
structure ChunkedState where
  finished : Bool
  src : List Char
  deriving Repr, DecidableEq

/-- `ChunkedEntityReader.readchunk` (`_entityreader.py` lines 98-142).
Returns `(transfer_decoded_data, raw_data)` and the successor state.  On an
error the Python code raises `EntityReadError`; the mutated reader state at
that point is not observed by any caller, so the error carries no state. -/
def ChunkedEntityReader.readchunk (st : ChunkedState) :
    Except HmExc ((List Char × List Char) × ChunkedState) :=
  -- did we previously read the zero chunk?
  if st.finished then .ok (([], []), st)
  else
    -- read the chunk size line
    let (raw, s1) := pyReadline st.src
    if raw = [] then .error (.entityReadError "no data read during read chunk size")
    else
      match pyParseHex (pyStrip raw) with
      | none => .error (.entityReadError "invalid chunk size")
      | some size =>
        if size = 0 then
          -- chunk_data = ''; finished := True; then the end separator is read
          let (sep, s2) := pyReadline s1
          if sep = [] then .error (.entityReadError "no data read during read chunk separator")
          else if sep ≠ ['\r', '\n'] then .error (.entityReadError "end separator wrong")
          else .ok (([], raw ++ sep), { finished := true, src := s2 })
        else
          let (chunkData, s2) := pyReadInt size s1
          if chunkData = [] then .error (.entityReadError "no data read during read chunk data")
          else if (chunkData.length : Int) ≠ size then
            .error (.entityReadError "chunk size mismatch")
          else
            let (sep, s3) := pyReadline s2
            if sep = [] then .error (.entityReadError "no data read during read chunk separator")
            else if sep ≠ ['\r', '\n'] then .error (.entityReadError "end separator wrong")
            else .ok ((chunkData, (raw ++ chunkData) ++ sep), { finished := st.finished, src := s3 })

/-- Iterate `readchunk` `n` times, collecting the `(decoded, raw)` pairs. -/
def runChunks : Nat → ChunkedState → Except HmExc (List (List Char × List Char) × ChunkedState)
  | 0, st => .ok ([], st)
  | n + 1, st =>
    match ChunkedEntityReader.readchunk st with
    | .error e => .error e
    | .ok (pair, st1) =>
      match runChunks n st1 with
      | .error e => .error e
      | .ok (rest, st2) => .ok (pair :: rest, st2)

/-- Concatenation of the decoded components of a `runChunks` result. -/
def decodedConcat (r : Except HmExc (List (List Char × List Char) × ChunkedState)) :
    Option (List Char) :=
  match r with
  | .ok (l, _) => some (l.map Prod.fst).flatten
  | .error _ => none

/-! ## Claims C4 and C9 -/

/-- C4: on the input `"4\r\nWiki\r\n5\r\npedia\r\n0\r\n\r\n"` the chunked
reader yields decoded chunks `"Wiki"`, `"pedia"`, then the zero chunk, then the
terminal empty/empty signal, and the decoded concatenation is `"Wikipedia"`;
a chunk-size line `"xyz\r\n"` raises `EntityReadError`; chunk data followed by
a two-byte separator `";\n"` (different from CRLF) raises `EntityReadError`. -/
theorem c4_chunked_decode :
    runChunks 4 { finished := false, src := "4\r\nWiki\r\n5\r\npedia\r\n0\r\n\r\n".toList } =
      .ok ([("Wiki".toList, "4\r\nWiki\r\n".toList),
            ("pedia".toList, "5\r\npedia\r\n".toList),
            ([], "0\r\n\r\n".toList),
            ([], [])],
           { finished := true, src := [] })
    ∧ decodedConcat
        (runChunks 4 { finished := false, src := "4\r\nWiki\r\n5\r\npedia\r\n0\r\n\r\n".toList }) =
        some "Wikipedia".toList
    ∧ ChunkedEntityReader.readchunk { finished := false, src := "xyz\r\n".toList } =
        .error (.entityReadError "invalid chunk size")
    ∧ ChunkedEntityReader.readchunk { finished := false, src := "1\r\nA;\n".toList } =
        .error (.entityReadError "end separator wrong") := by
  refine ⟨?_, ?_, ?_, ?_⟩ <;> decide

/-- C9: after a zero chunk-size line the reader still reads one more line and
fails with `EntityReadError` whenever that line is absent or differs from CRLF;
in particular a stream ending exactly at `"0\r\n"` fails rather than
terminating cleanly. -/
theorem c9_zero_chunk_requires_crlf (rest : List Char)
    (h : (pyReadline rest).1 ≠ ['\r', '\n']) :
    (∃ msg, ChunkedEntityReader.readchunk { finished := false, src := '0' :: '\r' :: '\n' :: rest } =
        .error (.entityReadError msg))
    ∧ ChunkedEntityReader.readchunk { finished := false, src := ['0', '\r', '\n'] } =
        .error (.entityReadError "no data read during read chunk separator") := by
  constructor
  · have hline : pyReadline ('0' :: '\r' :: '\n' :: rest) = (['0', '\r', '\n'], rest) := by
      simp [pyReadline]
    rw [ChunkedEntityReader.readchunk]
    simp only [hline]
    by_cases hsep : (pyReadline rest).1 = []
    · exact ⟨"no data read during read chunk separator", by simp [pyStrip, isPySpace, pyParseHex,
        hexDigitsAux, hexDigitVal, hsep]⟩
    · exact ⟨"end separator wrong", by simp [pyStrip, isPySpace, pyParseHex,
        hexDigitsAux, hexDigitVal, hsep, h]⟩
  · decide

/-- Witness for C9 at the concrete input `rest = []` (stream ending exactly at
`"0\r\n"`). -/
theorem c9_zero_chunk_requires_crlf_witness :
    (∃ msg, ChunkedEntityReader.readchunk { finished := false, src := '0' :: '\r' :: '\n' :: [] } =
        .error (.entityReadError msg))
    ∧ ChunkedEntityReader.readchunk { finished := false, src := ['0', '\r', '\n'] } =
        .error (.entityReadError "no data read during read chunk separator") :=
  c9_zero_chunk_requires_crlf [] (by decide)

/-! ## Header multimap (`httpmessage/_multidict.py`, `httpmessage/_headers.py`) -/

/-- The `MultiDict._data` store: header-cased key to its ordered value list.
Keys are unique; every stored list is non-empty (the Python operations maintain
both invariants). -/
def HeaderData := List (String × List String)

/-- Python `str.split(sep)` for a one-character separator, over a character
list (splitting an empty string yields one empty field, as in Python). -/
def pySplitOn (sep : Char) : List Char → List (List Char)
  | [] => [[]]
  | c :: cs =>
    let r := pySplitOn sep cs
    if c = sep then [] :: r
    else
      match r with
      | [] => [[c]]
      | g :: gs => (c :: g) :: gs

/-- Python `sep.join(fields)` for a one-character separator. -/
def pyJoinSep (sep : Char) : List (List Char) → List Char
  | [] => []
  | [g] => g
  | g :: gs => g ++ sep :: pyJoinSep sep gs

/-- Python `str.capitalize()`: first character upper-cased, the rest lowered. -/
def pyCapitalize (s : List Char) : List Char :=
  match s with
  | [] => []
  | c :: cs => c.toUpper :: cs.map Char.toLower

/-- `_headers.header_case`: capitalize each hyphen-separated segment. -/
def header_case (s : String) : String :=
  String.mk (pyJoinSep '-' ((pySplitOn '-' s.toList).map pyCapitalize))

/-- Raw lookup in `MultiDict._data` (no key normalization). -/
def mdLookup (d : HeaderData) (k : String) : Option (List String) :=
  (d.find? (fun kv => kv.1 = k)).map Prod.snd

/-- `MultiDict.__delitem__` (`_multidict.py` lines 16-19): `del _data[key][-1]`
raises `KeyError` when the key is absent; otherwise drops the last value and
removes the key when its list becomes empty. -/
def MultiDict.delitem (d : HeaderData) (k : String) : Except HmExc HeaderData :=
  match mdLookup d k with
  | none => .error .keyError
  | some vs =>
    let vs1 := vs.dropLast
    if vs1 = [] then .ok (d.filter (fun kv => kv.1 ≠ k))
    else .ok (d.map (fun kv => if kv.1 = k then (kv.1, vs1) else kv))

/-- `MultiDict.delall` (`_multidict.py` lines 46-47): `del _data[key]` raises
`KeyError` when the key is absent. -/
def MultiDict.delall (d : HeaderData) (k : String) : Except HmExc HeaderData :=
  match mdLookup d k with
  | none => .error .keyError
  | some _ => .ok (d.filter (fun kv => kv.1 ≠ k))

/-- `Headers.__delitem__`: the `Headers` subclass wraps every `MultiDict`
method taking a `key` argument so that the key is passed through
`header_case` first (`_headers.py` lines 10-40). -/
def Headers.delitem (d : HeaderData) (k : String) : Except HmExc HeaderData :=
  MultiDict.delitem d (header_case k)

/-- `Headers.delall` with key normalization, as installed by `Headers`. -/
def Headers.delall (d : HeaderData) (k : String) : Except HmExc HeaderData :=
  MultiDict.delall d (header_case k)

/-- `HeaderField.__delete__` (`_headerfield.py` lines 81-85): `del
instance[self.header]` with `KeyError` swallowed, so absent keys are a no-op. -/
def HeaderField.delete (d : HeaderData) (header : String) : HeaderData :=
  match Headers.delitem d header with
  | .ok d1 => d1
  | .error _ => d

/-- `instance.get(header, None)` as used by `HeaderField.__get__`:
`MultiDict.__getitem__` returns the LAST stored value for the key
(`_data[key][-1]`), with the key normalized by the `Headers` wrapper. -/
def Headers.get (d : HeaderData) (k : String) : Option String :=
  (mdLookup d (header_case k)).bind List.getLast?

/-! ## Typed header fields used by `entity_size` (`httpmessage/_headerfield.py`) -/

/-- `ListHeaderField.value_decode`: split the raw CSV value on commas, strip
each item, and keep the non-empty ones (`_headerfield.py` lines 162-173).
`csv.reader` quoting is not exercised by any header value in this development,
so the comma split is exact here.  `none` models an absent header. -/
def ListHeaderField.value_decode (v : Option String) : Option (List String) :=
  v.map (fun s =>
    ((pySplitOn ',' s.toList).map (fun t => String.mk (pyStrip t))).filter (· ≠ ""))

/-- Python 2 comparison `tuple != str`: a tuple never equals a string, so the
comparison `self.transfer_encoding != 'identity'` in
`HttpMessage.entity_size` is true for EVERY decoded list value. -/
def pyTupleNeStr (_ : List String) (_ : String) : Bool := true

/-- Python truthiness of a decoded list value (`None` and the empty tuple are
falsy). -/
def pyTruthyList (v : Option (List String)) : Bool :=
  match v with
  | none => false
  | some l => !l.isEmpty

/-- The declared entity size: a byte count, or one of the `httpmessage.const`
sentinels (`const.py`). -/
inductive EntitySize
  | byteCount (n : Int)
  | zeroByteChunk
  | multipartByterange
  | connectionClose
  deriving Repr, DecidableEq

/-- `HttpMessage.entity_size` (`message.py` lines 279-297).  The result is
`none` when the Python code would raise (a present but unparsable
`Content-Length`, whose `int()` conversion fails inside the descriptor). -/
def HttpMessage.entity_size (hs : HeaderData) : Option EntitySize :=
  let te := ListHeaderField.value_decode (Headers.get hs "Transfer-Encoding")
  if pyTruthyList te && pyTupleNeStr (te.getD []) "identity" then
    some .zeroByteChunk
  else
    match Headers.get hs "Content-Length" with
    | some raw => (pyParseInt raw).map (fun n => .byteCount n)
    | none =>
      match Headers.get hs "Content-Type" with
      | some ct =>
        if ct ≠ "" && String.mk (ct.toList.map Char.toLower) = "multipart/byteranges" then
          some .multipartByterange
        else some .connectionClose
      | none => some .connectionClose

/-- `RequestMessage.entity_size` (`message.py` lines 426-431): methods GET and
HEAD force a zero-length entity before the general rule. -/
def RequestMessage.entity_size (method : String) (hs : HeaderData) : Option EntitySize :=
  if method = "GET" ∨ method = "HEAD" then some (.byteCount 0)
  else HttpMessage.entity_size hs

/-- `ResponseMessage.entity_size` (`message.py` lines 533-544): status in
[100,200) or 204 or 304 forces zero-length, then an originating HEAD request
forces zero-length, then the general rule. -/
def ResponseMessage.entity_size (request_method : Option String) (status_code : Option Int)
    (hs : HeaderData) : Option EntitySize :=
  let code := status_code.getD (-1)
  if (100 ≤ code ∧ code < 200) ∨ code = 204 ∨ code = 304 then some (.byteCount 0)
  else if request_method = some "HEAD" then some (.byteCount 0)
  else HttpMessage.entity_size hs

/-- Modelled from the claim C1 decision table (spec section 4.5), NOT from the
code: Transfer-Encoding present with a value other than "identity" gives the
chunked variant; otherwise Content-Length gives that integer; otherwise
Content-Type multipart/byteranges gives the multipart variant; otherwise
until-close. -/
def entitySizeClaimTable (hs : HeaderData) : Option EntitySize :=
  match Headers.get hs "Transfer-Encoding" with
  | some v =>
    if v ≠ "identity" then some .zeroByteChunk else entitySizeClaimTableRest hs
  | none => entitySizeClaimTableRest hs
where
  entitySizeClaimTableRest (hs : HeaderData) : Option EntitySize :=
    match Headers.get hs "Content-Length" with
    | some raw => (pyParseInt raw).map (fun n => .byteCount n)
    | none =>
      match Headers.get hs "Content-Type" with
      | some ct =>
        if String.mk (ct.toList.map Char.toLower) = "multipart/byteranges" then
          some .multipartByterange
        else some .connectionClose
      | none => some .connectionClose

/-! ## Entity readers of all variants (`httpmessage/_entityreader.py`) -/

/-- `EntityReader` self-differentiates into one of five subclasses according
to the declared entity size (`_entityreader.py` lines 10-21); the union of
their states. -/
inductive ReaderState
  | simple (size : Int) (pos : Nat) (src : List Char)
  | tilClose (src : List Char)
  | chunked (st : ChunkedState)
  | nullReader
  | multipart (src : List Char)
  deriving Repr, DecidableEq

/-- The per-call read bound of `SimpleEntityReader` and
`TilCloseEntityReader`. -/
def read_size : Nat := 4096

/-- `readchunk` for each `EntityReader` subclass (`_entityreader.py`):
`SimpleEntityReader` (lines 48-64), `TilCloseEntityReader` (75-82),
`ChunkedEntityReader` (98-142), `MultipartEntityReader` (151-153, always
`NotImplementedError`), `NullEntityReader` (160-162). -/
def EntityReader.readchunk : ReaderState → Except HmExc ((List Char × List Char) × ReaderState)
  | .simple size pos src =>
    let sizeLeft : Int := size - (pos : Int)
    let thisRead : Int := min (read_size : Int) sizeLeft
    if thisRead < 0 then .error (.assertionFailed "over-read the data stream")
    else if thisRead = 0 then .ok (([], []), .simple size pos src)
    else
      let (raw, src1) := pyReadInt thisRead src
      if raw = [] then .error (.entityReadError "data stream ended early")
      else .ok ((raw, raw), .simple size (pos + raw.length) src1)
  | .tilClose src =>
    let (raw, src1) := pyRead read_size src
    if raw = [] then .ok (([], []), .tilClose src1)
    else .ok ((raw, raw), .tilClose src1)
  | .chunked st =>
    match ChunkedEntityReader.readchunk st with
    | .error e => .error e
    | .ok (pair, st1) => .ok (pair, .chunked st1)
  | .nullReader => .ok (([], []), .nullReader)
  | .multipart _ => .error .notImplementedYet

/-! ## Streaming entity buffer (`httpmessage/_entityio.py`) -/

/-- The internal `cStringIO` object: its contents and its own cursor. -/
structure StringBufSt where
  content : List Char
  fpos : Nat
  deriving Repr, DecidableEq

/-- The three legal `whence` values of `seek`. -/
inductive Whence
  | set
  | cur
  | toEnd
  deriving Repr, DecidableEq

/-- `cStringIO.seek`; a resulting negative position is clamped to 0 (the
Python object would raise there; no modelled caller seeks negative). -/
def StringBufSt.seek (f : StringBufSt) (position : Int) (w : Whence) : StringBufSt :=
  match w with
  | .set => { f with fpos := position.toNat }
  | .cur => { f with fpos := ((f.fpos : Int) + position).toNat }
  | .toEnd => { f with fpos := ((f.content.length : Int) + position).toNat }

/-- `cStringIO.write` at the current cursor: overwrite, extending as needed. -/
def StringBufSt.write (f : StringBufSt) (d : List Char) : StringBufSt :=
  { content := f.content.take f.fpos ++ d ++ f.content.drop (f.fpos + d.length)
    fpos := f.fpos + d.length }

/-- `cStringIO.read`: `none` size (or a negative one) reads to EOF. -/
def StringBufSt.readData (f : StringBufSt) (size : Option Int) : List Char × StringBufSt :=
  match size with
  | none => (f.content.drop f.fpos, { f with fpos := f.content.length })
  | some k =>
    if k < 0 then (f.content.drop f.fpos, { f with fpos := f.content.length })
    else ((f.content.drop f.fpos).take k.toNat,
          { f with fpos := min (f.fpos + k.toNat) f.content.length })

/-- The notification signals used by the buffer (`dispatch.py`). -/
inductive Signal
  | rawData
  | endData
  deriving Repr, DecidableEq

/-- Observable actions of a buffer operation, in program order: a
`dispatch.send` of a signal, or the `self.__class__ = FilelikeWrap`
conversion. -/
inductive BufEvent
  | publish (sig : Signal)
  | convertToWrapped
  deriving Repr, DecidableEq

/-- The mutable state of a (still streaming) `EntityIO` instance. -/
structure EntityIoSt where
  reader : ReaderState
  pos : Nat
  fileobj : StringBufSt
  isDispatching : Bool
  bufferingStarted : Bool
  deriving Repr, DecidableEq

/-- An `EntityIO` object is either still streaming or has converted itself
into a `FilelikeWrap`.  The wrapped form keeps the leftover `_pos` instance
attribute (still present on the Python object after the class change). -/
inductive EntityObj
  | streaming (e : EntityIoSt)
  | wrapped (pos : Nat) (f : StringBufSt)
  deriving Repr, DecidableEq

/-- The notification bus, abstracted as the environment's answer to a
`dispatch.send`: whether any subscriber callback returned `response.ABORT`
for the given signal and raw payload. -/
def Bus := Signal → List Char → Bool

/-- `EntityIO._transmogrify` (`_entityio.py` lines 68-76).  Order of events,
exactly as in the source: the reader is dropped, the class is changed to
`FilelikeWrap` (the `convertToWrapped` event), the file cursor is restored,
THEN `signal.END_DATA` is dispatched, and the cursor is restored again. -/
def EntityIo.transmogrify (e : EntityIoSt) : Except HmExc (EntityObj × List BufEvent) :=
  if e.isDispatching then .error (.reentrantDispatch "_transmogrify")
  else
    let pos := e.pos
    let f1 := e.fileobj.seek (pos : Int) .set
    let f2 := f1.seek (pos : Int) .set
    .ok (.wrapped pos f2, [BufEvent.convertToWrapped, BufEvent.publish .endData])

/-- `EntityIO._fileobj_len` (`_entityio.py` lines 79-82): seek the inner
buffer to its end and report the resulting cursor. -/
def EntityIo.fileobjLen (e : EntityIoSt) : Except HmExc (Nat × EntityIoSt) :=
  if e.isDispatching then .error (.reentrantDispatch "_fileobj_len")
  else
    let f := e.fileobj.seek 0 .toEnd
    .ok (f.fpos, { e with fileobj := f })

/-- `EntityIO.buffer_chunk` (`_entityio.py` lines 86-113): reentrancy guard,
mark buffering started, seek the store to its end, pull one `readchunk`; an
empty raw result triggers `_transmogrify`, otherwise the decoded data is
appended and `RAW_DATA` is dispatched (with `_is_dispatching` true during the
callbacks), failing with `BufferingAbort` when a subscriber returns ABORT. -/
def EntityIo.buffer_chunk (bus : Bus) (e : EntityIoSt) :
    Except HmExc ((List Char × List Char) × EntityObj × List BufEvent) :=
  if e.isDispatching then .error (.reentrantDispatch "buffer_chunk")
  else
    let e1 := { e with bufferingStarted := true, fileobj := e.fileobj.seek 0 .toEnd }
    match EntityReader.readchunk e1.reader with
    | .error err => .error err
    | .ok ((data, raw), r1) =>
      let e2 := { e1 with reader := r1 }
      if raw = [] then
        match EntityIo.transmogrify e2 with
        | .error err => .error err
        | .ok (obj, evs) => .ok ((data, raw), obj, evs)
      else
        let e3 := { e2 with fileobj := e2.fileobj.write data }
        if bus .rawData raw then .error .bufferingAbort
        else .ok ((data, raw), .streaming e3, [BufEvent.publish .rawData])

/-- Fuel bound for the `buffer_all` / `buffer_to` loops: each loop iteration
that continues consumed at least one character of the reader's source, so the
source length plus two strictly bounds the number of iterations. -/
def EntityIoSt.fuel (e : EntityIoSt) : Nat :=
  (match e.reader with
   | .simple _ _ s => s.length
   | .tilClose s => s.length
   | .chunked st => st.src.length
   | .nullReader => 0
   | .multipart s => s.length) + 2

/-- `EntityIO.buffer_all` (`_entityio.py` lines 116-126): call `buffer_chunk`
until the raw result is empty.  The fuel-zero case is unreachable for the
fuel chosen at every call site (see `EntityIoSt.fuel`). -/
def EntityIo.bufferAllLoop (bus : Bus) : Nat → EntityIoSt → Except HmExc (EntityObj × List BufEvent)
  | 0, e => .ok (.streaming e, [])
  | n + 1, e =>
    match EntityIo.buffer_chunk bus e with
    | .error err => .error err
    | .ok ((_, raw), obj, evs) =>
      if raw = [] then .ok (obj, evs)
      else
        match obj with
        | .wrapped p f => .ok (.wrapped p f, evs)
        | .streaming e1 =>
          match EntityIo.bufferAllLoop bus n e1 with
          | .error err => .error err
          | .ok (obj1, evs1) => .ok (obj1, evs ++ evs1)

/-- `EntityIO.buffer_all` at its natural fuel. -/
def EntityIo.buffer_all (bus : Bus) (e : EntityIoSt) : Except HmExc (EntityObj × List BufEvent) :=
  EntityIo.bufferAllLoop bus e.fuel e

/-- The `while current_size < size` loop of `EntityIO.buffer_to`
(`_entityio.py` lines 129-141). -/
def EntityIo.bufferToLoop (bus : Bus) :
    Nat → Int → Int → EntityIoSt → Except HmExc (EntityObj × List BufEvent)
  | 0, _, _, e => .ok (.streaming e, [])
  | n + 1, size, cur, e =>
    if cur < size then
      match EntityIo.buffer_chunk bus e with
      | .error err => .error err
      | .ok ((data, raw), obj, evs) =>
        if raw = [] then .ok (obj, evs)
        else
          match obj with
          | .wrapped p f => .ok (.wrapped p f, evs)
          | .streaming e1 =>
            match EntityIo.bufferToLoop bus n size (cur + data.length) e1 with
            | .error err => .error err
            | .ok (obj1, evs1) => .ok (obj1, evs ++ evs1)
    else .ok (.streaming e, [])

/-- `EntityIO.buffer_to`: take the current store length, then loop. -/
def EntityIo.buffer_to (bus : Bus) (size : Int) (e : EntityIoSt) :
    Except HmExc (EntityObj × List BufEvent) :=
  match EntityIo.fileobjLen e with
  | .error err => .error err
  | .ok (currentSize, e1) => EntityIo.bufferToLoop bus e1.fuel size (currentSize : Int) e1

/-- The `_pos` attribute and inner buffer of either object form. -/
def EntityObj.posFile : EntityObj → Nat × StringBufSt
  | .streaming e => (e.pos, e.fileobj)
  | .wrapped p f => (p, f)

/-- Store back `_pos` and the inner buffer after an operation. -/
def EntityObj.withPosFile : EntityObj → Nat → StringBufSt → EntityObj
  | .streaming e, p, f => .streaming { e with pos := p, fileobj := f }
  | .wrapped _ _, p, f => .wrapped p f

/-- `EntityIO.read` (`_entityio.py` lines 144-160): reentrancy guard, measure
the store, buffer everything (no size) or `buffer_to` the needed extent, then
read the slice from `_pos` and advance `_pos`. -/
def EntityIo.readOp (bus : Bus) (size : Option Int) (e : EntityIoSt) :
    Except HmExc (List Char × EntityObj × List BufEvent) :=
  if e.isDispatching then .error (.reentrantDispatch "read")
  else
    match EntityIo.fileobjLen e with
    | .error err => .error err
    | .ok (currentSize, e1) =>
      let buffered :=
        match size with
        | none => EntityIo.buffer_all bus e1
        | some k =>
          let need : Int := max 0 ((e1.pos : Int) + k - (currentSize : Int))
          if need ≠ 0 then EntityIo.buffer_to bus ((currentSize : Int) + need) e1
          else .ok (.streaming e1, [])
      match buffered with
      | .error err => .error err
      | .ok (obj, evs) =>
        let (p, f) := obj.posFile
        let f1 := f.seek (p : Int) .set
        let (data, f2) := f1.readData size
        .ok (data, obj.withPosFile f2.fpos f2, evs)

/-- `EntityIO.seek` (`_entityio.py` lines 185-206): reentrancy guard; seeking
to the end buffers everything, otherwise the needed extent is buffered
incrementally; then the inner cursor moves and `_pos` follows it.  The
`whence` validity check is subsumed by the `Whence` type. -/
def EntityIo.seekOp (bus : Bus) (position : Int) (w : Whence) (e : EntityIoSt) :
    Except HmExc (EntityObj × List BufEvent) :=
  if e.isDispatching then .error (.reentrantDispatch "seek")
  else
    let buffered :=
      match w with
      | .toEnd => EntityIo.buffer_all bus e
      | _ =>
        match EntityIo.fileobjLen e with
        | .error err => .error err
        | .ok (currentSize, e1) =>
          let need : Int :=
            match w with
            | .cur => max 0 ((e1.pos : Int) + position - (currentSize : Int))
            | .set => max 0 (position - (currentSize : Int))
            | .toEnd => 0
          if need ≠ 0 then EntityIo.buffer_to bus ((currentSize : Int) + need) e1
          else .ok (.streaming e1, [])
    match buffered with
    | .error err => .error err
    | .ok (obj, evs) =>
      let (_, f) := obj.posFile
      let f1 := f.seek position w
      .ok (obj.withPosFile f1.fpos f1, evs)

/-- `EntityIO.tell` (`_entityio.py` lines 209-210): returns `self._pos`.  The
source has NO `_is_dispatching` guard here, unlike the other operations. -/
def EntityIo.tellOp (e : EntityIoSt) : Except HmExc Nat :=
  .ok e.pos

/-- `EntityIO.write` (`_entityio.py` lines 213-219): reentrancy guard, buffer
everything, then write at `_pos` and advance it. -/
def EntityIo.writeOp (bus : Bus) (data : List Char) (e : EntityIoSt) :
    Except HmExc (EntityObj × List BufEvent) :=
  if e.isDispatching then .error (.reentrantDispatch "write")
  else
    match EntityIo.buffer_all bus e with
    | .error err => .error err
    | .ok (obj, evs) =>
      let (p, f) := obj.posFile
      let f1 := f.seek (p : Int) .set
      let f2 := f1.write data
      .ok (obj.withPosFile f2.fpos f2, evs)

/-- `FilelikeWrap.read`: pure delegation to the inner buffer
(`_entityio.py` lines 6-36); no events are ever published. -/
def FilelikeWrap.readOp (size : Option Int) (f : StringBufSt) :
    (List Char × StringBufSt) × List BufEvent :=
  (f.readData size, [])

/-- `FilelikeWrap.seek`: pure delegation; no events. -/
def FilelikeWrap.seekOp (position : Int) (w : Whence) (f : StringBufSt) :
    StringBufSt × List BufEvent :=
  (f.seek position w, [])

/-- `FilelikeWrap.tell`: pure delegation; no events. -/
def FilelikeWrap.tellOp (f : StringBufSt) : Nat × List BufEvent :=
  (f.fpos, [])

/-- `FilelikeWrap.write`: pure delegation; no events. -/
def FilelikeWrap.writeOp (data : List Char) (f : StringBufSt) :
    StringBufSt × List BufEvent :=
  (f.write data, [])

/-! ## Claims C1 and C8 -/

/-- C1 failing input: `Transfer-Encoding: identity` together with
`Content-Length: 5`. -/
def c1Headers : HeaderData :=
  [("Transfer-Encoding", ["identity"]), ("Content-Length", ["5"])]

/-- C1: on a message carrying `Transfer-Encoding: identity` and
`Content-Length: 5` the code yields the chunked variant while the claim's
decision table yields the byte count 5.  The decoded `transfer_encoding` is a
Python tuple, so the source comparison `!= 'identity'` is vacuously true and
the identity exemption is dead code; the discrepancy propagates through the
request and response overrides for non-overridden methods and statuses. -/
theorem c1_entity_size_identity_divergence :
    HttpMessage.entity_size c1Headers = some .zeroByteChunk
    ∧ RequestMessage.entity_size "POST" c1Headers = some .zeroByteChunk
    ∧ ResponseMessage.entity_size none (some 200) c1Headers = some .zeroByteChunk
    ∧ entitySizeClaimTable c1Headers = some (.byteCount 5) := by
  refine ⟨?_, ?_, ?_, ?_⟩ <;> rfl

/-- C8 counterexample: deleting the absent key `"X-Foo"` (under normalization)
from a header multimap that does not contain it raises `KeyError` through both
`__delitem__` and `delall`, instead of being a no-op as the claim states. -/
theorem c8_delete_absent_key_raises :
    Headers.delitem [("Host", ["h"])] "x-foo" = .error .keyError
    ∧ Headers.delall [("Host", ["h"])] "x-foo" = .error .keyError := by
  refine ⟨?_, ?_⟩ <;> rfl

/-- C8 amended: on a key absent under case-insensitive normalization, the
multimap's own delete operations (`__delitem__`, `delall`) raise `KeyError`;
only the typed-field delete (`HeaderField.__delete__`), which swallows the
`KeyError`, is a no-op leaving the mapping unchanged. -/
theorem c8_delete_absent_key_behaviour (d : HeaderData) (k : String)
    (h : mdLookup d (header_case k) = none) :
    Headers.delitem d k = .error .keyError
    ∧ Headers.delall d k = .error .keyError
    ∧ HeaderField.delete d k = d := by
  refine ⟨?_, ?_, ?_⟩ <;>
    simp [Headers.delitem, Headers.delall, HeaderField.delete, MultiDict.delitem,
      MultiDict.delall, h]

/-- Witness for C8 amended at the concrete mapping `[("Host", ["h"])]` and key
`"x-bar"`. -/
theorem c8_delete_absent_key_behaviour_witness :
    Headers.delitem [("Host", ["h"])] "x-bar" = .error .keyError
    ∧ Headers.delall [("Host", ["h"])] "x-bar" = .error .keyError
    ∧ HeaderField.delete [("Host", ["h"])] "x-bar" = [("Host", ["h"])] :=
  c8_delete_absent_key_behaviour [("Host", ["h"])] "x-bar" (by rfl)

/-! ## Claims C5 and C6 -/

/-- A concrete buffer state that is in the middle of dispatching its own
`RAW_DATA` notification (`_is_dispatching` is true). -/
def dispatchingBuf : EntityIoSt :=
  { reader := .nullReader, pos := 3, fileobj := { content := "abc".toList, fpos := 0 },
    isDispatching := true, bufferingStarted := true }

/-- C5 counterexample: with the buffer in mid-dispatch, `tell` does NOT fail
with `ReentrantDispatch` as the claim states for all five operations — the
source `EntityIO.tell` has no guard and simply returns `_pos`. -/
theorem c5_tell_unguarded_counterexample :
    EntityIo.tellOp dispatchingBuf = .ok 3
    ∧ ¬ ∃ ctx, EntityIo.tellOp dispatchingBuf = .error (.reentrantDispatch ctx) := by
  refine ⟨rfl, ?_⟩
  rintro ⟨ctx, h⟩
  simp [EntityIo.tellOp, dispatchingBuf] at h

/-- C5 amended: while the buffer is dispatching its own notification,
`buffer_chunk`, `read`, `seek` and `write` fail immediately with the
distinguishable `ReentrantDispatch` error, but `tell` has no guard and
returns the cursor position normally. -/
theorem c5_reentrancy_guards (e : EntityIoSt) (bus : Bus) (sz : Option Int)
    (d : List Char) (p : Int) (w : Whence) (h : e.isDispatching = true) :
    EntityIo.buffer_chunk bus e = .error (.reentrantDispatch "buffer_chunk")
    ∧ EntityIo.readOp bus sz e = .error (.reentrantDispatch "read")
    ∧ EntityIo.seekOp bus p w e = .error (.reentrantDispatch "seek")
    ∧ EntityIo.writeOp bus d e = .error (.reentrantDispatch "write")
    ∧ EntityIo.tellOp e = .ok e.pos := by
  refine ⟨?_, ?_, ?_, ?_, rfl⟩ <;>
    simp [EntityIo.buffer_chunk, EntityIo.readOp, EntityIo.seekOp, EntityIo.writeOp, h]

/-- Witness for C5 amended at the concrete mid-dispatch state. -/
theorem c5_reentrancy_guards_witness :
    EntityIo.buffer_chunk (fun _ _ => false) dispatchingBuf
        = .error (.reentrantDispatch "buffer_chunk")
    ∧ EntityIo.readOp (fun _ _ => false) none dispatchingBuf
        = .error (.reentrantDispatch "read")
    ∧ EntityIo.seekOp (fun _ _ => false) 0 .set dispatchingBuf
        = .error (.reentrantDispatch "seek")
    ∧ EntityIo.writeOp (fun _ _ => false) [] dispatchingBuf
        = .error (.reentrantDispatch "write")
    ∧ EntityIo.tellOp dispatchingBuf = .ok 3 :=
  c5_reentrancy_guards dispatchingBuf (fun _ _ => false) none [] 0 .set rfl

/-- The ordering asserted by claim C6: a `publish END_DATA` event occurs
strictly before the conversion event. -/
def publishEndBeforeConvert : List BufEvent → Bool
  | [] => false
  | BufEvent.publish Signal.endData :: rest => rest.contains BufEvent.convertToWrapped
  | BufEvent.convertToWrapped :: _ => false
  | _ :: rest => publishEndBeforeConvert rest

/-- A concrete buffer whose reader is already terminal. -/
def terminalBuf : EntityIoSt :=
  { reader := .nullReader, pos := 0, fileobj := { content := [], fpos := 0 },
    isDispatching := false, bufferingStarted := false }

/-- C6 counterexample: when `buffer_chunk` receives the terminal signal, the
event order is conversion FIRST, then the `END_DATA` publication — the source
`_transmogrify` sets `self.__class__ = FilelikeWrap` (line 73) before calling
`dispatch.send(signal.END_DATA, ...)` (line 75), so the claimed
publish-then-convert order is false. -/
theorem c6_convert_before_publish_counterexample :
    EntityIo.buffer_chunk (fun _ _ => false) terminalBuf =
      .ok (([], []), .wrapped 0 { content := [], fpos := 0 },
           [BufEvent.convertToWrapped, BufEvent.publish .endData])
    ∧ publishEndBeforeConvert [BufEvent.convertToWrapped, BufEvent.publish .endData] = false :=
  ⟨rfl, rfl⟩

/-- C6 amended: on the terminal (empty/empty) signal, `buffer_chunk` first
converts the buffer into the plain in-memory wrapper and THEN publishes the
`END_DATA` notification; the conversion is one-way (the result is the
`wrapped` form) and the wrapper's `read`/`seek`/`tell`/`write` surface
publishes no further notifications. -/
theorem c6_transmogrify_converts_then_publishes (e : EntityIoSt) (bus : Bus)
    (d : List Char) (r1 : ReaderState)
    (hdisp : e.isDispatching = false)
    (hterm : EntityReader.readchunk e.reader = .ok ((d, []), r1)) :
    EntityIo.buffer_chunk bus e =
      .ok ((d, []),
        .wrapped e.pos
          (((e.fileobj.seek 0 .toEnd).seek (e.pos : Int) .set).seek (e.pos : Int) .set),
        [BufEvent.convertToWrapped, BufEvent.publish .endData])
    ∧ (∀ f sz, (FilelikeWrap.readOp sz f).2 = [])
    ∧ (∀ f p w, (FilelikeWrap.seekOp p w f).2 = [])
    ∧ (∀ f, (FilelikeWrap.tellOp f).2 = [])
    ∧ (∀ f d2, (FilelikeWrap.writeOp d2 f).2 = []) := by
  refine ⟨?_, fun f sz => rfl, fun f p w => rfl, fun f => rfl, fun f d2 => rfl⟩
  simp [EntityIo.buffer_chunk, EntityIo.transmogrify, hdisp, hterm]

/-- Witness for C6 amended at a concrete buffer over a finished chunked
reader. -/
theorem c6_transmogrify_converts_then_publishes_witness :
    EntityIo.buffer_chunk (fun _ _ => false)
      { reader := .chunked { finished := true, src := [] }, pos := 2,
        fileobj := { content := "ab".toList, fpos := 0 },
        isDispatching := false, bufferingStarted := true } =
      .ok (([], []), .wrapped 2 { content := "ab".toList, fpos := 2 },
           [BufEvent.convertToWrapped, BufEvent.publish .endData])
    ∧ (∀ f sz, (FilelikeWrap.readOp sz f).2 = [])
    ∧ (∀ f p w, (FilelikeWrap.seekOp p w f).2 = [])
    ∧ (∀ f, (FilelikeWrap.tellOp f).2 = [])
    ∧ (∀ f d2, (FilelikeWrap.writeOp d2 f).2 = []) := by
  have h := c6_transmogrify_converts_then_publishes
    { reader := .chunked { finished := true, src := [] }, pos := 2,
      fileobj := { content := "ab".toList, fpos := 0 },
      isDispatching := false, bufferingStarted := true }
    (fun _ _ => false) [] (.chunked { finished := true, src := [] }) rfl rfl
  simpa using h

/-! ## Cache coordinator (`proxyserv.py`)

The coordinator's shared state — the `redirect_map` dict, the cache directory
and the `working` list — becomes an explicit record.  Cache files are indexed
by fingerprint key; the path mapping `key_to_filepath` only renames keys
one-to-one (character substitution, or a content hash for overlong names), so
"the file at `key_to_filepath k`" is modelled as "the entry at `k`".  The
modelled configuration is the default one: `save_to_cache = True`,
`determinize = None`, `type_on = None`. -/

/-- Python `str.replace("%3D", "=")`: leftmost, non-overlapping. -/
def replacePercent3D : List Char → List Char
  | '%' :: '3' :: 'D' :: rest => '=' :: replacePercent3D rest
  | c :: rest => c :: replacePercent3D rest
  | [] => []

/-- The redirect-target extraction of `ProxyHandler.request_to_server`
(`proxyserv.py` lines 82-91): take the `continue=` query part if one exists,
strip a leading `http://`, and decode `%3D`. -/
def extractRedirect (location : String) : String :=
  let r :=
    match (pySplitOn '&' location.toList).find? (fun part => part.take 9 = "continue=".toList) with
    | some part => part.drop 9
    | none => location.toList
  let r := if r.take 7 = "http://".toList then r.drop 7 else r
  String.mk (replacePercent3D r)

/-- The coordinator state visible to one connection handler. -/
structure ProxyState where
  redirectMap : String → Option String
  cacheFiles : String → Option String
  working : List String
  sent : List String

/-- Pointwise update of a string-keyed map. -/
def mapUpdate (m : String → Option String) (k : String) (v : Option String) :
    String → Option String :=
  fun x => if x = k then v else m x

/-- `ProxyHandler.request_to_server` (`proxyserv.py` lines 59-149), given the
already-fetched response: the redirect-cycle removal (lines 79-102), the
conditional cache write (lines 121-126, skipped when `key == redirect_url`),
the removal of every occurrence of the filepath from `working` (lines
145-146), and the final send to the client (line 149). -/
def request_to_server (key : String) (location : Option String) (response : String)
    (st : ProxyState) : ProxyState :=
  let redirectUrl : Option String :=
    match location with
    | some loc => if loc ≠ "" then some (extractRedirect loc) else none
    | none => none
  let (m1, files1) :=
    match redirectUrl with
    | some r =>
      let m1 := mapUpdate st.redirectMap key (some r)
      if m1 r = some key then
        (mapUpdate m1 r none, mapUpdate st.cacheFiles r none)
      else (m1, st.cacheFiles)
    | none => (st.redirectMap, st.cacheFiles)
  let files2 :=
    if redirectUrl = some key then files1
    else mapUpdate files1 key (some response)
  { redirectMap := m1
    cacheFiles := files2
    working := st.working.filter (fun p => p ≠ key)
    sent := st.sent ++ [response] }

/-- Outcome of the delegated fetch process in `cache_or_request`. -/
inductive FetchOutcome
  | succeeds (location : Option String) (response : String)
  | raises
  | timesOut
  deriving Repr, DecidableEq

/-- The cache-miss branch of `ProxyHandler.cache_or_request` (`proxyserv.py`
lines 207-244): append the filepath to `working`, write the `~empty~`
placeholder, run the fetch; on a timeout, delete the placeholder and remove
the first `working` occurrence (lines 226-234); on any raised error, log,
delete the placeholder and re-raise (lines 235-244) — the `working` entry is
NOT removed there.  The returned flag is true when the error is re-raised. -/
def cache_or_request_miss (key : String) (outcome : FetchOutcome) (st : ProxyState) :
    ProxyState × Bool :=
  let st1 := { st with working := st.working ++ [key] }
  let st2 := { st1 with cacheFiles := mapUpdate st1.cacheFiles key (some "~empty~") }
  match outcome with
  | .succeeds location response => (request_to_server key location response st2, false)
  | .raises =>
    ({ st2 with cacheFiles := mapUpdate st2.cacheFiles key none }, true)
  | .timesOut =>
    ({ st2 with cacheFiles := mapUpdate st2.cacheFiles key none,
                working := st2.working.erase key }, false)

/-! ## Interleaving model for the claim protocol (claim C3)

The observable actions of `cache_or_request` on the shared cache, in program
order.  The source's lock acquisitions are all commented out
(`#lock.acquire()` at lines 154 and 221, `#lock.release()` at lines 157 and
221, `#working_lock...` likewise), so the path contains no lock action at
all. -/

/-- Atomic actions a claimant can take on the shared cache state. -/
inductive PAction
  | lockAcquire
  | lockRelease
  | checkCache
  | writePlaceholder
  | startFetch
  | endFetch
  deriving Repr, DecidableEq

/-- The action sequence of `cache_or_request` on the claim path, translated
from `proxyserv.py`: the `ls` existence check (line 155), the placeholder
write (line 220), and the fetch process run (lines 223-225).  No lock action
appears: every `lock.acquire()` / `lock.release()` in the source is commented
out. -/
def claimPathActions : List PAction :=
  [.checkCache, .writePlaceholder, .startFetch, .endFetch]

/-- A system of claimant threads for one fingerprint: each thread's remaining
actions, the placeholder bit, and the number of in-flight fetches (with its
running maximum). -/
structure ConcState where
  threads : List (List PAction)
  placeholder : Bool
  inFlight : Nat
  maxInFlight : Nat
  deriving Repr, DecidableEq

/-- Execute one action of thread `i`.  A `checkCache` that sees the
placeholder takes the cache-hit branch (serve/poll — no fetch), modelled as
the thread stopping. -/
def stepThread (c : ConcState) (i : Nat) : ConcState :=
  match c.threads[i]? with
  | none => c
  | some [] => c
  | some (a :: rest) =>
    match a with
    | .checkCache =>
      if c.placeholder then { c with threads := c.threads.set i [] }
      else { c with threads := c.threads.set i rest }
    | .writePlaceholder =>
      { c with placeholder := true, threads := c.threads.set i rest }
    | .startFetch =>
      { c with inFlight := c.inFlight + 1,
               maxInFlight := max c.maxInFlight (c.inFlight + 1),
               threads := c.threads.set i rest }
    | .endFetch =>
      { c with inFlight := c.inFlight - 1, threads := c.threads.set i rest }
    | .lockAcquire => { c with threads := c.threads.set i rest }
    | .lockRelease => { c with threads := c.threads.set i rest }

/-- Run a schedule (a list of thread indices). -/
def runSched (c : ConcState) : List Nat → ConcState
  | [] => c
  | i :: s => runSched (stepThread c i) s

/-- Two claimants for the same fingerprint, both at the start of
`cache_or_request`, cache empty. -/
def twoClaimants : ConcState :=
  { threads := [claimPathActions, claimPathActions]
    placeholder := false, inFlight := 0, maxInFlight := 0 }

/-! ## Claims C2, C3, C7, C10 -/

/-- The empty coordinator state. -/
def emptyProxyState : ProxyState :=
  { redirectMap := fun _ => none, cacheFiles := fun _ => none, working := [], sent := [] }

/-- C2: when the fetch for a claimed fingerprint raises, the handler's
`except` clause deletes the placeholder and re-raises, but it does NOT remove
the fingerprint from the in-flight `working` list (compare the timeout path,
which does): after the error return the placeholder is gone while `"f"` is
still recorded as in flight, contradicting the claim's required cleanup. -/
theorem c2_error_path_leaves_working_entry :
    (cache_or_request_miss "f" .raises emptyProxyState).2 = true
    ∧ (cache_or_request_miss "f" .raises emptyProxyState).1.cacheFiles "f" = none
    ∧ "f" ∈ (cache_or_request_miss "f" .raises emptyProxyState).1.working
    ∧ (cache_or_request_miss "f" .timesOut emptyProxyState).1.working = [] := by
  refine ⟨rfl, ?_, ?_, ?_⟩ <;> decide

/-- C3: the claim path of `cache_or_request` performs no lock acquisition at
all (every `lock.acquire()` in the source is commented out), and under the
interleaving where both claimants run their existence check before either
writes the placeholder, both origin fetches are in flight simultaneously —
refuting check-then-write atomicity and the at-most-one-fetch guarantee. -/
theorem c3_no_lock_two_fetches :
    PAction.lockAcquire ∉ claimPathActions
    ∧ (runSched twoClaimants [0, 1, 0, 1, 0, 1]).maxInFlight = 2 := by
  refine ⟨?_, ?_⟩ <;> decide

/-- C7: if fingerprint `A`'s fetch redirects to `B` (the extracted target of
the response's Location) and the redirect map already records `B ↦ A`, then
after `A`'s success path runs, `B`'s cache entry is deleted and `B`'s
redirect-map entry is removed. -/
theorem c7_two_hop_cycle_removed (A B loc response : String) (st : ProxyState)
    (hloc : loc ≠ "") (hex : extractRedirect loc = B)
    (hmap : st.redirectMap B = some A) :
    ((request_to_server A (some loc) response st).redirectMap B = none)
    ∧ ((request_to_server A (some loc) response st).cacheFiles B = none) := by
  have hcond : mapUpdate st.redirectMap A (some B) B = some A := by
    by_cases hBA : B = A
    · subst hBA
      simp [mapUpdate]
    · simp [mapUpdate, hBA, hmap]
  by_cases hBA : B = A
  · constructor <;>
      simp [request_to_server, hloc, hex, hcond, mapUpdate, hBA, hmap]
  · constructor <;>
      simp [request_to_server, hloc, hex, hcond, mapUpdate, hBA, hmap]

/-- Witness for C7: `A = "a.com#1"`, `B = "b.com#2"`, location
`"http://b.com#2"`, a map recording `B ↦ A`. -/
theorem c7_two_hop_cycle_removed_witness :
    ((request_to_server "a.com#1" (some "http://b.com#2") "RESP"
        { redirectMap := fun x => if x = "b.com#2" then some "a.com#1" else none,
          cacheFiles := fun x => if x = "b.com#2" then some "OLD" else none,
          working := [], sent := [] }).redirectMap "b.com#2" = none)
    ∧ ((request_to_server "a.com#1" (some "http://b.com#2") "RESP"
        { redirectMap := fun x => if x = "b.com#2" then some "a.com#1" else none,
          cacheFiles := fun x => if x = "b.com#2" then some "OLD" else none,
          working := [], sent := [] }).cacheFiles "b.com#2" = none) :=
  c7_two_hop_cycle_removed "a.com#1" "b.com#2" "http://b.com#2" "RESP" _
    (by decide) (by rfl) (by simp)

/-- The concrete self-redirect scenario for C10: the placeholder for `"k"` is
on disk and the response's extracted redirect target is `"k"` itself. -/
def selfRedirectState : ProxyState :=
  { redirectMap := fun _ => none
    cacheFiles := fun x => if x = "k" then some "~empty~" else none
    working := ["k"], sent := [] }

/-- C10 counterexample: on a self-redirect the cache entry for the
fingerprint is NOT left unchanged — the cycle-detection step (the self-entry
`k ↦ k` immediately matches the two-hop check) deletes the fingerprint's own
cache file, so the placeholder that was present beforehand is gone. -/
theorem c10_self_redirect_deletes_entry_counterexample :
    selfRedirectState.cacheFiles "k" = some "~empty~"
    ∧ (request_to_server "k" (some "http://k") "RESP" selfRedirectState).cacheFiles "k" = none
    ∧ (request_to_server "k" (some "http://k") "RESP" selfRedirectState).sent = ["RESP"] := by
  refine ⟨?_, ?_, ?_⟩ <;> decide

/-- C10 amended: on the success path with a self-redirect (extracted target
equal to the fingerprint key), the serialized response is not written to the
fingerprint's cache file; instead the cycle-detection deletes that cache file
and removes the fingerprint's redirect-map entry, and the response is still
sent to the client. -/
theorem c10_self_redirect_no_write (key loc response : String) (st : ProxyState)
    (hloc : loc ≠ "") (hex : extractRedirect loc = key) :
    ((request_to_server key (some loc) response st).cacheFiles key = none)
    ∧ ((request_to_server key (some loc) response st).redirectMap key = none)
    ∧ ((request_to_server key (some loc) response st).sent = st.sent ++ [response]) := by
  refine ⟨?_, ?_, ?_⟩ <;> simp [request_to_server, hloc, hex, mapUpdate]

/-- Witness for C10 amended at `key = "k2"`, location `"http://k2"`. -/
theorem c10_self_redirect_no_write_witness :
    ((request_to_server "k2" (some "http://k2") "R2" emptyProxyState).cacheFiles "k2" = none)
    ∧ ((request_to_server "k2" (some "http://k2") "R2" emptyProxyState).redirectMap "k2" = none)
    ∧ ((request_to_server "k2" (some "http://k2") "R2" emptyProxyState).sent = [] ++ ["R2"]) :=
  c10_self_redirect_no_write "k2" "http://k2" "R2" emptyProxyState (by decide) (by rfl)

end CacheProxy
